import Mathlib

/-
Verification of the daqhats Python binding (scan lifecycle of the MCC 128 /
MCC 172 boards) against its natural-language specification.

Modelling conventions:
* Python `float` values (sample rates, timeouts, sample data) are modelled as
  rationals (`ℚ`); Python `int` as `Int` (or `Nat` where the source value is
  known non-negative, e.g. ctypes out-parameters of type `c_ulong`).
* The native shared library (`libdaqhats`) is not part of the Python sources;
  each binding call is modelled against an environment record carrying the
  result code and out-parameter values the native call produces on the call in
  question.  Fields such as `statusResult`, `readResult`, `samplesRead`,
  `bufferData` record exactly what the native layer reported / wrote.
* Python exceptions are modelled with `Except PyErr`; `HatError(address, msg)`
  and `ValueError(msg)` keep their message strings verbatim (format holes are
  spliced with `toString`).
* ctypes marshaling detail kept: indexing a `c_double` array out of range
  raises (modelled `indexError`), and indexing `None` raises (modelled
  `typeError`).
-/

namespace Daqhats

/-- Native result codes from `Hat` in hats.py (`_RESULT_SUCCESS` etc.). -/
def RESULT_SUCCESS : Int := 0

/-- `Hat._RESULT_BAD_PARAMETER`. -/
def RESULT_BAD_PARAMETER : Int := -1

/-- `Hat._RESULT_BUSY`. -/
def RESULT_BUSY : Int := -2

/-- `Hat._RESULT_TIMEOUT`. -/
def RESULT_TIMEOUT : Int := -3

/-- `Hat._RESULT_LOCK_TIMEOUT`. -/
def RESULT_LOCK_TIMEOUT : Int := -4

/-- `Hat._RESULT_INVALID_DEVICE`. -/
def RESULT_INVALID_DEVICE : Int := -5

/-- `Hat._RESULT_RESOURCE_UNAVAIL`. -/
def RESULT_RESOURCE_UNAVAIL : Int := -6

/-- `Hat._RESULT_COMMS_FAILURE`. -/
def RESULT_COMMS_FAILURE : Int := -7

/-- `Hat._RESULT_UNDEFINED`. -/
def RESULT_UNDEFINED : Int := -10

/-- Python exceptions raised by the binding.  `hatError` carries the board
address and message like `HatError(address, msg)`; `valueError` is
`ValueError(msg)`; `exception` is a bare `Exception`; `typeError` /
`indexError` model the exceptions ctypes raises when a `None` buffer or an
out-of-range array index is accessed. -/
inductive PyErr where
  | valueError (msg : String)
  | hatError (address : Int) (msg : String)
  | exception (msg : String)
  | typeError
  | indexError
deriving DecidableEq, Repr

/-- True exactly for the two exception classes the binding raises on a native
failure code: `HatError` and `ValueError`. -/
def PyErr.isHatOrValue : PyErr → Bool
  | .hatError _ _ => true
  | .valueError _ => true
  | _ => false

/-- What the native layer reports / writes during one call of
`mcc128.a_in_scan_read` (mcc128.py lines 772-893).  `channelCount` is the
value of `mcc128_a_in_scan_channel_count`; `statusResult`, `statusBits`,
`samplesAvailable` are the result code and out-parameters of the
`mcc128_a_in_scan_status` call made in the negative branch; `readResult`,
`readStatusBits`, `samplesRead` are the result code and out-parameters of the
`mcc128_a_in_scan_read` native call; `bufferData i` is the i-th `c_double` the
native read left in the allocated buffer. -/
structure Mcc128ReadEnv where
  address : Int
  channelCount : Nat
  statusResult : Int
  statusBits : Nat
  samplesAvailable : Nat
  readResult : Int
  readStatusBits : Nat
  samplesRead : Nat
  bufferData : Nat → ℚ

/-- A native call made by the binding during `a_in_scan_read`, with the
arguments the binding passed: the Python `timeout` argument is forwarded
verbatim to the native read. -/
inductive NativeCall where
  | statusCall
  | readCall (samplesToRead : Nat) (timeout : ℚ) (bufferSize : Nat)
deriving DecidableEq, Repr

/-- The `MCC128ScanRead` namedtuple returned by `a_in_scan_read`. -/
structure Mcc128ScanRead where
  running : Bool
  hardware_overrun : Bool
  buffer_overrun : Bool
  triggered : Bool
  timeout : Bool
  data : List ℚ
deriving DecidableEq, Repr

/-- The Python list comprehension `[data_buffer[i] for i in range(total_read)]`
over a ctypes `c_double` array of length `size` (or over `None` when
`samples_per_channel == 0`): an empty range reads nothing; indexing `None`
raises TypeError; indexing past the array raises IndexError. -/
def cDoubleArrayList (buf : Option (Nat → ℚ)) (size total : Nat) :
    Except PyErr (List ℚ) :=
  if total = 0 then .ok []
  else
    match buf with
    | none => .error .typeError
    | some f => if total ≤ size then .ok ((List.range total).map f) else .error .indexError

/-- Builds the `MCC128ScanRead` namedtuple from the status word written by the
native read (`_STATUS_HW_OVERRUN = 1`, `_STATUS_BUFFER_OVERRUN = 2`,
`_STATUS_TRIGGERED = 4`, `_STATUS_RUNNING = 8`). -/
def mcc128ScanReadOf (bits : Nat) (timedOut : Bool) (dataList : List ℚ) :
    Mcc128ScanRead where
  running := bits &&& 8 != 0
  hardware_overrun := bits &&& 1 != 0
  buffer_overrun := bits &&& 2 != 0
  triggered := bits &&& 4 != 0
  timeout := timedOut
  data := dataList

/-- The tail of `mcc128.a_in_scan_read` after the three-way branch chose
`samples_to_read`, `buffer_size` and `data_buffer` (mcc128.py lines 861-893):
invoke the native read, dispatch on its result code (`BAD_PARAMETER` →
ValueError, `RESOURCE_UNAVAIL` → HatError, `TIMEOUT` → set the timed-out flag
and fall through, any other non-success → HatError), then marshal
`samples_read_per_channel * num_channels` doubles out of the buffer. -/
def mcc128ReadDispatch (env : Mcc128ReadEnv) (timeout : ℚ)
    (samples_to_read buffer_size : Nat) (data_buffer : Option (Nat → ℚ))
    (calls : List NativeCall) : Except PyErr Mcc128ScanRead × List NativeCall :=
  if env.readResult = RESULT_BAD_PARAMETER then
    (.error (.valueError "Invalid parameter."),
     calls ++ [NativeCall.readCall samples_to_read timeout buffer_size])
  else if env.readResult = RESULT_RESOURCE_UNAVAIL then
    (.error (.hatError env.address "Scan not active."),
     calls ++ [NativeCall.readCall samples_to_read timeout buffer_size])
  else if env.readResult ≠ RESULT_TIMEOUT ∧ env.readResult ≠ RESULT_SUCCESS then
    (.error (.hatError env.address
      ("Incorrect response " ++ toString env.readResult ++ ".")),
     calls ++ [NativeCall.readCall samples_to_read timeout buffer_size])
  else
    match cDoubleArrayList data_buffer buffer_size (env.samplesRead * env.channelCount) with
    | .error e =>
      (.error e, calls ++ [NativeCall.readCall samples_to_read timeout buffer_size])
    | .ok data_list =>
      (.ok (mcc128ScanReadOf env.readStatusBits (env.readResult == RESULT_TIMEOUT) data_list),
       calls ++ [NativeCall.readCall samples_to_read timeout buffer_size])

/-- Shallow embedding of `mcc128.a_in_scan_read` (mcc128.py lines 772-893).
`inited` is `self._initialized`.  Besides the outcome it returns the list of
native calls the binding made, with their arguments.  The three-way branch on
`samples_per_channel` (negative: ask status for `samples_available` and read
that many; zero: status-only read with a `None` buffer; positive: read the
requested count) mirrors the source, including the trailing `else` that
raises `ValueError("Invalid samples_per_channel ...")`. -/
def mcc128_a_in_scan_read (env : Mcc128ReadEnv) (inited : Bool)
    (samples_per_channel : Int) (timeout : ℚ) :
    Except PyErr Mcc128ScanRead × List NativeCall :=
  if inited = false then
    (.error (.hatError env.address "Not initialized."), [])
  else if samples_per_channel < 0 then
    if env.statusResult ≠ RESULT_SUCCESS then
      (.error (.hatError env.address
        ("Incorrect response " ++ toString env.statusResult ++ ".")),
       [NativeCall.statusCall])
    else
      mcc128ReadDispatch env timeout env.samplesAvailable
        (env.samplesAvailable * env.channelCount) (some env.bufferData)
        [NativeCall.statusCall]
  else if samples_per_channel = 0 then
    mcc128ReadDispatch env timeout 0 0 none []
  else if samples_per_channel > 0 then
    mcc128ReadDispatch env timeout samples_per_channel.toNat
      (samples_per_channel.toNat * env.channelCount) (some env.bufferData) []
  else
    (.error (.valueError
      ("Invalid samples_per_channel " ++ toString samples_per_channel ++ ".")), [])

/-- The `samples_to_read` value the branch chain of `a_in_scan_read` passes to
the native read for a given `samples_per_channel` argument. -/
def mcc128ReadSamplesToRead (env : Mcc128ReadEnv) (samples_per_channel : Int) : Nat :=
  if samples_per_channel < 0 then env.samplesAvailable
  else if samples_per_channel = 0 then 0
  else samples_per_channel.toNat

/-- Modelled from the spec: the blocking behavior of the native
`mcc128_a_in_scan_read` entry point (C library, not among the Python
sources).  The native read blocks the caller, up to the given timeout, only
while fewer samples per channel are available than were requested; when the
requested count is already available it returns at once whatever the timeout
argument is ("read all currently available samples immediately, ignore
timeout"). -/
def nativeReadBlocks (samplesToRead samplesAvailable : Nat) : Bool :=
  decide (samplesAvailable < samplesToRead)

/-- Shallow embedding of the static method `mcc172.a_in_scan_actual_rate`
(mcc172.py lines 643-671), with Python floats modelled as rationals:
`divisor = 51200.0 / sample_rate_per_channel + 0.5`, clamp the float divisor
to `[1.0, 256.0]`, then `51200.0 / int(divisor)`.  Python `int()` truncates
toward zero; the clamped divisor is at least 1, so truncation is `Int.floor`.
(For `sample_rate_per_channel = 0` Python would raise ZeroDivisionError; the
rational model returns a junk value there, and every theorem about this
function assumes a positive rate.) -/
def mcc172_a_in_scan_actual_rate (sample_rate_per_channel : ℚ) : ℚ :=
  let divisor₀ : ℚ := 51200 / sample_rate_per_channel + 1/2
  let divisor : ℚ := if divisor₀ < 1 then 1 else if divisor₀ > 256 then 256 else divisor₀
  51200 / ((⌊divisor⌋ : ℤ) : ℚ)

/-- C5: for every positive requested sample rate, `mcc172.a_in_scan_actual_rate`
returns 51200 divided by the integer divisor `⌊51200/rate + 1/2⌋` (half-up
rounding of `51200/rate`) clamped to the range 1..256.  (The source clamps the
rational value before truncating; this theorem shows that equals truncating
first and clamping the integer, as the claim states it.) -/
theorem c5_actual_rate_clamped_divisor (rate : ℚ) (hpos : 0 < rate) :
    mcc172_a_in_scan_actual_rate rate =
      51200 / ((max 1 (min 256 ⌊51200 / rate + 1/2⌋) : ℤ) : ℚ) := by
  unfold mcc172_a_in_scan_actual_rate
  set d : ℚ := 51200 / rate + 1/2 with hd
  by_cases h1 : d < 1
  · have hf : ⌊d⌋ ≤ 0 := by
      have : ⌊d⌋ < 1 := by
        have := Int.floor_le d
        exact_mod_cast Int.floor_lt.mpr (by exact_mod_cast h1)
      omega
    have hmin : min 256 ⌊d⌋ = ⌊d⌋ := min_eq_right (by omega)
    have hmax : max 1 (min 256 ⌊d⌋) = 1 := by rw [hmin]; exact max_eq_left (by omega)
    simp only [if_pos h1, hmax]
    norm_num
  · by_cases h2 : d > 256
    · have hf : (256 : ℤ) ≤ ⌊d⌋ := by
        rw [Int.le_floor]
        exact_mod_cast le_of_lt h2
      have hmin : min 256 ⌊d⌋ = 256 := min_eq_left hf
      have hmax : max 1 (min 256 ⌊d⌋) = 256 := by rw [hmin]; norm_num
      simp only [if_neg h1, if_pos h2, hmax]
      norm_num
    · have hlo : (1 : ℤ) ≤ ⌊d⌋ := by
        rw [Int.le_floor]
        exact_mod_cast not_lt.mp h1
      have hhi : ⌊d⌋ ≤ 256 := by
        have : ⌊d⌋ ≤ ⌊(256 : ℚ)⌋ := Int.floor_le_floor (not_lt.mp h2)
        simpa using this
      have hmin : min 256 ⌊d⌋ = ⌊d⌋ := min_eq_right hhi
      have hmax : max 1 (min 256 ⌊d⌋) = ⌊d⌋ := by rw [hmin]; exact max_eq_right hlo
      simp only [if_neg h1, if_neg h2, hmax]

/-- Witness for C5 at the concrete rate 1000: the divisor is
`⌊51.2 + 0.5⌋ = 51`, so the actual rate is `51200/51`. -/
theorem c5_actual_rate_clamped_divisor_witness :
    (0 : ℚ) < 1000 ∧
      mcc172_a_in_scan_actual_rate 1000 =
        51200 / ((max 1 (min 256 ⌊(51200 : ℚ) / 1000 + 1/2⌋) : ℤ) : ℚ) :=
  ⟨by norm_num, c5_actual_rate_clamped_divisor 1000 (by norm_num)⟩

/-- Marshaling a `None` buffer with a zero read count yields the empty list. -/
lemma cDoubleArrayList_none_zero (size : Nat) :
    cDoubleArrayList none size 0 = .ok [] := rfl

/-- Marshaling an in-bounds read out of a real buffer yields the mapped range. -/
lemma cDoubleArrayList_some (f : Nat → ℚ) (size total : Nat) (h : total ≤ size) :
    cDoubleArrayList (some f) size total = .ok ((List.range total).map f) := by
  unfold cDoubleArrayList
  by_cases h0 : total = 0
  · subst h0; simp
  · simp [h0, h]

/-- A successful marshal returns exactly `total` samples. -/
lemma cDoubleArrayList_ok_length (buf : Option (Nat → ℚ)) (size total : Nat)
    (l : List ℚ) (h : cDoubleArrayList buf size total = .ok l) : l.length = total := by
  unfold cDoubleArrayList at h
  split at h
  · cases h
    simp_all
  · split at h
    · exact Except.noConfusion h
    · split at h
      · cases h
        simp
      · exact Except.noConfusion h

/-- A failed marshal fails only with TypeError or IndexError. -/
lemma cDoubleArrayList_error (buf : Option (Nat → ℚ)) (size total : Nat)
    (e : PyErr) (h : cDoubleArrayList buf size total = .error e) :
    e = .typeError ∨ e = .indexError := by
  unfold cDoubleArrayList at h
  split at h
  · exact Except.noConfusion h
  · split at h
    · cases h
      exact Or.inl rfl
    · split at h
      · exact Except.noConfusion h
      · cases h
        exact Or.inr rfl

/-- The branch chain of `a_in_scan_read`, negative case: the binding asks the
native status call for `samples_available` and hands exactly that count to the
native read. -/
lemma mcc128_read_neg (env : Mcc128ReadEnv) (spc : Int) (timeout : ℚ)
    (h : spc < 0) (hstat : env.statusResult = RESULT_SUCCESS) :
    mcc128_a_in_scan_read env true spc timeout =
      mcc128ReadDispatch env timeout env.samplesAvailable
        (env.samplesAvailable * env.channelCount) (some env.bufferData)
        [NativeCall.statusCall] := by
  unfold mcc128_a_in_scan_read
  rw [if_neg (by simp), if_pos h, if_neg (by simp [hstat])]

/-- The branch chain of `a_in_scan_read`, zero case. -/
lemma mcc128_read_zero (env : Mcc128ReadEnv) (timeout : ℚ) :
    mcc128_a_in_scan_read env true 0 timeout =
      mcc128ReadDispatch env timeout 0 0 none [] := by
  unfold mcc128_a_in_scan_read
  rw [if_neg (by simp), if_neg (by omega), if_pos rfl]

/-- The branch chain of `a_in_scan_read`, positive case. -/
lemma mcc128_read_pos (env : Mcc128ReadEnv) (spc : Int) (timeout : ℚ)
    (h : 0 < spc) :
    mcc128_a_in_scan_read env true spc timeout =
      mcc128ReadDispatch env timeout spc.toNat (spc.toNat * env.channelCount)
        (some env.bufferData) [] := by
  unfold mcc128_a_in_scan_read
  rw [if_neg (by simp), if_neg (by omega), if_neg (by omega), if_pos h]

/-- Error / timeout behavior of the post-branch tail of `a_in_scan_read`: with
a well-behaved native read (`samples_read ≤ samples_to_read`), the call errors
iff the native code is neither success nor timeout, the error is always a
HatError or ValueError, and a native timeout yields a normal return carrying
the samples that were read with the timed-out flag set. -/
lemma mcc128ReadDispatch_spec (env : Mcc128ReadEnv) (timeout : ℚ)
    (str bsz : Nat) (buf : Option (Nat → ℚ)) (calls : List NativeCall)
    (hsr : env.samplesRead ≤ str) (hbsz : bsz = str * env.channelCount)
    (hbuf : buf = some env.bufferData ∨ (buf = none ∧ str = 0)) :
    ((∃ e, (mcc128ReadDispatch env timeout str bsz buf calls).1 = .error e) ↔
        env.readResult ≠ RESULT_SUCCESS ∧ env.readResult ≠ RESULT_TIMEOUT)
    ∧ (∀ e, (mcc128ReadDispatch env timeout str bsz buf calls).1 = .error e →
        e.isHatOrValue = true)
    ∧ (env.readResult = RESULT_TIMEOUT →
        ∃ r, (mcc128ReadDispatch env timeout str bsz buf calls).1 = .ok r ∧
          r.timeout = true ∧
          r.data = (List.range (env.samplesRead * env.channelCount)).map env.bufferData) := by
  have hmarshal : cDoubleArrayList buf bsz (env.samplesRead * env.channelCount) =
      .ok ((List.range (env.samplesRead * env.channelCount)).map env.bufferData) := by
    rcases hbuf with hbuf | ⟨hbuf, hstr⟩
    · subst hbuf
      exact cDoubleArrayList_some _ _ _ (by subst hbsz; exact Nat.mul_le_mul_right _ hsr)
    · subst hbuf
      have h0 : env.samplesRead = 0 := by omega
      rw [h0]
      simpa using cDoubleArrayList_none_zero bsz
  unfold mcc128ReadDispatch
  by_cases h1 : env.readResult = RESULT_BAD_PARAMETER
  · rw [if_pos h1]
    refine ⟨⟨fun _ => by rw [h1]; exact ⟨by decide, by decide⟩, fun _ => ⟨_, rfl⟩⟩,
      fun e he => ?_, fun ht => ?_⟩
    · cases he; rfl
    · rw [h1] at ht
      exact absurd ht (by decide)
  · rw [if_neg h1]
    by_cases h2 : env.readResult = RESULT_RESOURCE_UNAVAIL
    · rw [if_pos h2]
      refine ⟨⟨fun _ => by rw [h2]; exact ⟨by decide, by decide⟩, fun _ => ⟨_, rfl⟩⟩,
        fun e he => ?_, fun ht => ?_⟩
      · cases he; rfl
      · rw [h2] at ht
        exact absurd ht (by decide)
    · rw [if_neg h2]
      by_cases h3 : env.readResult ≠ RESULT_TIMEOUT ∧ env.readResult ≠ RESULT_SUCCESS
      · rw [if_pos h3]
        refine ⟨⟨fun _ => ⟨h3.2, h3.1⟩, fun _ => ⟨_, rfl⟩⟩,
          fun e he => ?_, fun ht => absurd ht h3.1⟩
        cases he; rfl
      · rw [if_neg h3, hmarshal]
        refine ⟨⟨fun he => ?_, fun hc => absurd ⟨hc.2, hc.1⟩ h3⟩,
          fun e he => ?_, fun ht => ⟨_, rfl, ?_, rfl⟩⟩
        · obtain ⟨e, he⟩ := he
          exact absurd he (by simp)
        · exact absurd he (by simp)
        · show (env.readResult == RESULT_TIMEOUT) = true
          rw [ht]
          simp

/-- On every path, the tail of `a_in_scan_read` records exactly one native
read call, with the chosen `samples_to_read`, the verbatim Python `timeout`
argument, and the chosen buffer size. -/
lemma mcc128ReadDispatch_calls (env : Mcc128ReadEnv) (timeout : ℚ)
    (str bsz : Nat) (buf : Option (Nat → ℚ)) (calls : List NativeCall) :
    (mcc128ReadDispatch env timeout str bsz buf calls).2 =
      calls ++ [NativeCall.readCall str timeout bsz] := by
  unfold mcc128ReadDispatch
  split_ifs <;> first
    | rfl
    | (rcases h : cDoubleArrayList buf bsz (env.samplesRead * env.channelCount)
         with e | l <;> simp [h])

/-- A successful tail returns `samples_read_per_channel * num_channels`
samples. -/
lemma mcc128ReadDispatch_ok_length (env : Mcc128ReadEnv) (timeout : ℚ)
    (str bsz : Nat) (buf : Option (Nat → ℚ)) (calls : List NativeCall)
    (r : Mcc128ScanRead)
    (h : (mcc128ReadDispatch env timeout str bsz buf calls).1 = .ok r) :
    r.data.length = env.samplesRead * env.channelCount := by
  unfold mcc128ReadDispatch at h
  split_ifs at h
  rcases hm : cDoubleArrayList buf bsz (env.samplesRead * env.channelCount)
      with e | l
  · rw [hm] at h; cases h
  · rw [hm] at h
    cases h
    simpa [mcc128ScanReadOf] using cDoubleArrayList_ok_length _ _ _ _ hm

/-- A ValueError out of the tail can only be the native bad-parameter one. -/
lemma mcc128ReadDispatch_valueError (env : Mcc128ReadEnv) (timeout : ℚ)
    (str bsz : Nat) (buf : Option (Nat → ℚ)) (calls : List NativeCall)
    (m : String)
    (h : (mcc128ReadDispatch env timeout str bsz buf calls).1 =
      .error (.valueError m)) :
    m = "Invalid parameter." ∧ env.readResult = RESULT_BAD_PARAMETER := by
  unfold mcc128ReadDispatch at h
  split_ifs at h with h1 h2 h3
  · cases h; exact ⟨rfl, h1⟩
  · cases h
  · cases h
  · rcases hm : cDoubleArrayList buf bsz (env.samplesRead * env.channelCount)
        with e | l
    · rw [hm] at h
      cases h
      rcases cDoubleArrayList_error _ _ _ _ hm with he | he <;> cases he
    · rw [hm] at h; cases h

/-- C1: for every active scan (the native status call succeeds and the native
read honors its request bound), when the native scan-read reports a timeout
result `a_in_scan_read` returns normally, with the samples that were read and
the `timeout` field of the result set to true, raising no error; and a
HatError or ValueError is raised if and only if the native read result is a
failure code other than success or timeout. -/
theorem c1_scan_read_timeout_is_normal (env : Mcc128ReadEnv) (spc : Int) (timeout : ℚ)
    (hstat : env.statusResult = RESULT_SUCCESS)
    (hsr : env.samplesRead ≤ mcc128ReadSamplesToRead env spc) :
    ((∃ e, (mcc128_a_in_scan_read env true spc timeout).1 = .error e) ↔
        env.readResult ≠ RESULT_SUCCESS ∧ env.readResult ≠ RESULT_TIMEOUT)
    ∧ (∀ e, (mcc128_a_in_scan_read env true spc timeout).1 = .error e →
        e.isHatOrValue = true)
    ∧ (env.readResult = RESULT_TIMEOUT →
        ∃ r, (mcc128_a_in_scan_read env true spc timeout).1 = .ok r ∧
          r.timeout = true ∧
          r.data = (List.range (env.samplesRead * env.channelCount)).map env.bufferData) := by
  unfold mcc128ReadSamplesToRead at hsr
  rcases lt_trichotomy spc 0 with h | h | h
  · rw [mcc128_read_neg env spc timeout h hstat]
    rw [if_pos h] at hsr
    exact mcc128ReadDispatch_spec env timeout _ _ _ _ hsr rfl (Or.inl rfl)
  · subst h
    rw [mcc128_read_zero env timeout]
    rw [if_neg (by omega), if_pos rfl] at hsr
    exact mcc128ReadDispatch_spec env timeout _ _ _ _ hsr (by simp) (Or.inr ⟨rfl, rfl⟩)
  · rw [mcc128_read_pos env spc timeout h]
    rw [if_neg (by omega), if_neg (by omega)] at hsr
    exact mcc128ReadDispatch_spec env timeout _ _ _ _ hsr rfl (Or.inl rfl)

/-- Concrete environment for the C1 witness: a healthy active scan on 2
channels whose native read reports a timeout after 3 of the requested 4
samples per channel. -/
def c1TestEnv : Mcc128ReadEnv where
  address := 0
  channelCount := 2
  statusResult := RESULT_SUCCESS
  statusBits := 0
  samplesAvailable := 5
  readResult := RESULT_TIMEOUT
  readStatusBits := 8
  samplesRead := 3
  bufferData := fun i => (i : ℚ)

/-- Witness for C1 at `samples_per_channel = 4`, `timeout = 1`: the native
read timed out after 3 of 4 samples per channel; the call returns normally
with 6 samples and the timed-out flag, raising nothing. -/
theorem c1_scan_read_timeout_is_normal_witness :
    c1TestEnv.statusResult = RESULT_SUCCESS ∧
    c1TestEnv.samplesRead ≤ mcc128ReadSamplesToRead c1TestEnv 4 ∧
    c1TestEnv.readResult = RESULT_TIMEOUT ∧
    (∃ r, (mcc128_a_in_scan_read c1TestEnv true 4 1).1 = .ok r ∧
      r.timeout = true ∧
      r.data = (List.range (c1TestEnv.samplesRead * c1TestEnv.channelCount)).map
        c1TestEnv.bufferData) ∧
    ¬∃ e, (mcc128_a_in_scan_read c1TestEnv true 4 1).1 = .error e := by
  have h := c1_scan_read_timeout_is_normal c1TestEnv 4 1 rfl (by decide)
  exact ⟨rfl, by decide, rfl, h.2.2 rfl, fun he => (h.1.mp he).2 rfl⟩

/-- C3: for `samples_per_channel < 0` on an active scan, `a_in_scan_read`
makes the native status call and then requests from the native read exactly
the `samples_available` count that status call reported (forwarding the
Python timeout argument verbatim); by the modelled native semantics a read
for a count already available does not block, for any timeout. -/
theorem c3_scan_read_negative_reads_available (env : Mcc128ReadEnv) (spc : Int)
    (timeout : ℚ) (hneg : spc < 0) (hstat : env.statusResult = RESULT_SUCCESS) :
    (mcc128_a_in_scan_read env true spc timeout).2 =
      [NativeCall.statusCall,
       NativeCall.readCall env.samplesAvailable timeout
         (env.samplesAvailable * env.channelCount)] ∧
    nativeReadBlocks env.samplesAvailable env.samplesAvailable = false := by
  constructor
  · rw [mcc128_read_neg env spc timeout hneg hstat, mcc128ReadDispatch_calls]
    rfl
  · simp [nativeReadBlocks]

/-- Concrete environment for the C3 witness. -/
def c3TestEnv : Mcc128ReadEnv where
  address := 0
  channelCount := 2
  statusResult := RESULT_SUCCESS
  statusBits := 8
  samplesAvailable := 5
  readResult := RESULT_SUCCESS
  readStatusBits := 8
  samplesRead := 5
  bufferData := fun _ => 0

/-- Witness for C3 at `samples_per_channel = -1`, `timeout = 2`. -/
theorem c3_scan_read_negative_reads_available_witness :
    (-1 : Int) < 0 ∧ c3TestEnv.statusResult = RESULT_SUCCESS ∧
    ((mcc128_a_in_scan_read c3TestEnv true (-1) 2).2 =
      [NativeCall.statusCall,
       NativeCall.readCall c3TestEnv.samplesAvailable 2
         (c3TestEnv.samplesAvailable * c3TestEnv.channelCount)] ∧
     nativeReadBlocks c3TestEnv.samplesAvailable c3TestEnv.samplesAvailable = false) :=
  ⟨by decide, rfl, c3_scan_read_negative_reads_available c3TestEnv (-1) 2 (by decide) rfl⟩

/-- C4: every successful `a_in_scan_read` call returns a data list of length
`samples_read_per_channel * num_channels`, hence always an integer multiple
of the active channel count. -/
theorem c4_scan_read_data_multiple_of_channels (env : Mcc128ReadEnv)
    (inited : Bool) (spc : Int) (timeout : ℚ) (r : Mcc128ScanRead)
    (h : (mcc128_a_in_scan_read env inited spc timeout).1 = .ok r) :
    r.data.length = env.samplesRead * env.channelCount ∧
    ∃ k, r.data.length = k * env.channelCount := by
  have hlen : r.data.length = env.samplesRead * env.channelCount := by
    unfold mcc128_a_in_scan_read at h
    split_ifs at h with hi hn hs hz hp <;>
      first
        | exact Except.noConfusion h
        | exact mcc128ReadDispatch_ok_length _ _ _ _ _ _ _ h
  exact ⟨hlen, env.samplesRead, hlen⟩

/-- Concrete environment for the C4 witness: 2 channels, native read reports
3 samples per channel read. -/
def c4TestEnv : Mcc128ReadEnv where
  address := 0
  channelCount := 2
  statusResult := RESULT_SUCCESS
  statusBits := 0
  samplesAvailable := 5
  readResult := RESULT_SUCCESS
  readStatusBits := 8
  samplesRead := 3
  bufferData := fun _ => 0

/-- The namedtuple the C4 witness call returns: 3 samples per channel on 2
channels is 6 interleaved values. -/
def c4TestResult : Mcc128ScanRead where
  running := true
  hardware_overrun := false
  buffer_overrun := false
  triggered := false
  timeout := false
  data := [0, 0, 0, 0, 0, 0]

/-- Witness for C4 at `samples_per_channel = 3`, `timeout = 0`. -/
theorem c4_scan_read_data_multiple_of_channels_witness :
    (mcc128_a_in_scan_read c4TestEnv true 3 0).1 = .ok c4TestResult ∧
    (c4TestResult.data.length = c4TestEnv.samplesRead * c4TestEnv.channelCount ∧
     ∃ k, c4TestResult.data.length = k * c4TestEnv.channelCount) :=
  ⟨rfl, c4_scan_read_data_multiple_of_channels c4TestEnv true 3 0 c4TestResult rfl⟩

/-- C10: the three branches of `a_in_scan_read` on the integer
`samples_per_channel` are exhaustive, so the trailing
`ValueError("Invalid samples_per_channel ...")` branch is unreachable: every
ValueError the function can raise is the native bad-parameter one
("Invalid parameter."), for any environment, initialization state and
arguments. -/
theorem c10_scan_read_branches_exhaustive (env : Mcc128ReadEnv) (inited : Bool)
    (spc : Int) (timeout : ℚ) :
    ∀ m, (mcc128_a_in_scan_read env inited spc timeout).1 =
        .error (.valueError m) →
      m = "Invalid parameter." ∧ env.readResult = RESULT_BAD_PARAMETER := by
  intro m h
  unfold mcc128_a_in_scan_read at h
  split_ifs at h with hi hn hs hz hp <;>
    first
      | exact mcc128ReadDispatch_valueError _ _ _ _ _ _ _ h
      | omega
      | simp at h

/-- Concrete environment for the C10 witness: the native read reports
bad-parameter. -/
def c10TestEnv : Mcc128ReadEnv where
  address := 0
  channelCount := 2
  statusResult := RESULT_SUCCESS
  statusBits := 0
  samplesAvailable := 5
  readResult := RESULT_BAD_PARAMETER
  readStatusBits := 0
  samplesRead := 0
  bufferData := fun _ => 0

/-- Witness for C10: the one reachable ValueError is the native
bad-parameter one. -/
theorem c10_scan_read_branches_exhaustive_witness :
    (mcc128_a_in_scan_read c10TestEnv true 2 0).1 =
      .error (.valueError "Invalid parameter.") ∧
    ("Invalid parameter." = "Invalid parameter." ∧
     c10TestEnv.readResult = RESULT_BAD_PARAMETER) :=
  ⟨rfl,
   c10_scan_read_branches_exhaustive c10TestEnv true 2 0 "Invalid parameter." rfl⟩

/-- The Python bit test `(channel_mask & (1 << i)) != 0` for an arbitrary
Python int, including two's-complement semantics for negative masks. -/
def pyBitTest (m : Int) (i : Nat) : Bool :=
  if 0 ≤ m then m.toNat.testBit i else !((-m - 1).toNat.testBit i)

/-- The `num_channels` counting loop of `a_in_scan_start`:
`for index in range(numBits): if (channel_mask & (1 << index)) != 0:
num_channels += 1`.  `numBits` is 8 on the MCC 128 and 2 on the MCC 172. -/
def countChannels (mask : Int) (numBits : Nat) : Nat :=
  ((List.range numBits).filter (fun i => pyBitTest mask i)).length

/-- `mcc128._MAX_SAMPLE_RATE` (100000.0). -/
def MAX_SAMPLE_RATE_128 : ℚ := 100000

/-- What the native layer reports on the one native call `a_in_scan_start`
makes. -/
structure ScanStartEnv where
  address : Int
  startResult : Int

/-- Shallow embedding of `mcc128.a_in_scan_start` (mcc128.py lines 565-688).
Returns the outcome and whether the native `mcc128_a_in_scan_start` call was
reached.  The binding-side checks are exactly: mask non-zero, and the count
of set bits among positions 0-7 times the rate within `_MAX_SAMPLE_RATE`. -/
def mcc128_a_in_scan_start (env : ScanStartEnv) (inited : Bool)
    (channel_mask : Int) (samples_per_channel : Nat)
    (sample_rate_per_channel : ℚ) (options : Nat) : Except PyErr Unit × Bool :=
  if inited = false then
    (.error (.hatError env.address "Not initialized."), false)
  else if channel_mask = 0 then
    (.error (.valueError "channel_mask must be nonzero."), false)
  else if (countChannels channel_mask 8 : ℚ) * sample_rate_per_channel >
      MAX_SAMPLE_RATE_128 then
    (.error (.valueError
      "Invalid sample_rate_per_channel, exceeds maximum rate for device."), false)
  else if env.startResult = RESULT_BAD_PARAMETER then
    (.error (.valueError "Invalid scan parameter."), true)
  else if env.startResult = RESULT_BUSY then
    (.error (.hatError env.address "A scan is already active."), true)
  else if env.startResult = RESULT_RESOURCE_UNAVAIL then
    (.error (.hatError env.address "Memory could not be allocated."), true)
  else if env.startResult ≠ RESULT_SUCCESS then
    (.error (.hatError env.address
      ("Incorrect response " ++ toString env.startResult ++ ".")), true)
  else (.ok (), true)

/-- Shallow embedding of `mcc172.a_in_scan_start` (mcc172.py lines 673-787).
It has no sample-rate parameter; the only binding-side check is
`(channel_mask == 0) or (channel_mask > 3)`.  (The source also computes
`num_channels` over bits 0-1 but never uses it.) -/
def mcc172_a_in_scan_start (env : ScanStartEnv) (inited : Bool)
    (channel_mask : Int) (samples_per_channel : Nat) (options : Nat) :
    Except PyErr Unit × Bool :=
  if inited = false then
    (.error (.hatError env.address "Not initialized."), false)
  else if channel_mask = 0 ∨ channel_mask > 3 then
    (.error (.valueError "channel_mask must be 1 - 3"), false)
  else if env.startResult = RESULT_BAD_PARAMETER then
    (.error (.valueError "Invalid scan parameter."), true)
  else if env.startResult = RESULT_BUSY then
    (.error (.hatError env.address "A scan is already active."), true)
  else if env.startResult = RESULT_RESOURCE_UNAVAIL then
    (.error (.hatError env.address "Memory could not be allocated."), true)
  else if env.startResult ≠ RESULT_SUCCESS then
    (.error (.hatError env.address
      ("Incorrect response " ++ toString env.startResult ++ ".")), true)
  else (.ok (), true)

/-- C2 counterexample: on the MCC 128, the mask 0x100 = 256 has bit 8 set —
a channel that does not exist — yet `a_in_scan_start` reaches the native
start call without raising any error (the binding only rejects mask 0 and the
rate ceiling; it never examines bits at position 8 or above). -/
theorem c2_counterexample :
    pyBitTest 256 8 = true ∧
    (mcc128_a_in_scan_start ⟨0, RESULT_SUCCESS⟩ true 256 1000 1000 0).2 = true ∧
    (mcc128_a_in_scan_start ⟨0, RESULT_SUCCESS⟩ true 256 1000 1000 0).1 = .ok () := by
  have hc : countChannels 256 8 = 0 := by decide
  have hrate : ¬((countChannels 256 8 : ℚ) * 1000 > MAX_SAMPLE_RATE_128) := by
    rw [hc]
    norm_num [MAX_SAMPLE_RATE_128]
  refine ⟨by decide, ?_, ?_⟩ <;>
  · unfold mcc128_a_in_scan_start
    rw [if_neg (by simp), if_neg (by decide), if_neg hrate, if_neg (by decide),
      if_neg (by decide), if_neg (by decide), if_neg (by decide)]

/-- C2 amended: `a_in_scan_start` reaches the native start call iff — MCC
128: the mask is non-zero and the count of set bits among positions 0-7 times
the rate does not exceed 100000.0 (set bits at positions 8 and above are not
rejected by the binding); MCC 172: the mask is neither 0 nor greater than 3.
Otherwise it raises ValueError before any native call. -/
theorem c2_start_reaches_native_iff (env : ScanStartEnv) (mask : Int)
    (spc : Nat) (rate : ℚ) (opts : Nat) :
    ((mcc128_a_in_scan_start env true mask spc rate opts).2 = true ↔
      mask ≠ 0 ∧ ¬((countChannels mask 8 : ℚ) * rate > MAX_SAMPLE_RATE_128)) ∧
    ((mcc172_a_in_scan_start env true mask spc opts).2 = true ↔
      ¬(mask = 0 ∨ mask > 3)) := by
  constructor
  · unfold mcc128_a_in_scan_start
    rw [if_neg (by simp)]
    by_cases hm : mask = 0
    · rw [if_pos hm]
      simp [hm]
    · rw [if_neg hm]
      by_cases hr : (countChannels mask 8 : ℚ) * rate > MAX_SAMPLE_RATE_128
      · rw [if_pos hr]
        simp [hm, hr]
      · rw [if_neg hr]
        split_ifs <;> simp [hm, hr]
  · unfold mcc172_a_in_scan_start
    rw [if_neg (by simp)]
    by_cases hm : mask = 0 ∨ mask > 3
    · rw [if_pos hm]
      simp [hm]
    · rw [if_neg hm]
      split_ifs <;> simp [hm]

/-- C6 counterexample: `mcc172.a_in_scan_start` takes no sample-rate argument
and performs no aggregate-rate check: starting both channels (mask 3, two set
bits) reaches the native call raising no ValueError, although two channels at
the device's full 51.2 kHz clock exceed an aggregate of 51200. -/
theorem c6_counterexample :
    countChannels 3 2 = 2 ∧ (2 : ℚ) * 51200 > 51200 ∧
    (mcc172_a_in_scan_start ⟨0, RESULT_SUCCESS⟩ true 3 1000 0).1 = .ok () ∧
    (mcc172_a_in_scan_start ⟨0, RESULT_SUCCESS⟩ true 3 1000 0).2 = true := by
  refine ⟨by decide, by norm_num, ?_, ?_⟩ <;>
  · unfold mcc172_a_in_scan_start
    rw [if_neg (by simp), if_neg (by decide), if_neg (by decide),
      if_neg (by decide), if_neg (by decide), if_neg (by decide)]

/-- C6 amended: on the MCC 128, if the count of set bits times the requested
rate exceeds the 100000.0 ceiling, `a_in_scan_start` raises ValueError before
invoking the native layer; the MCC 172 `a_in_scan_start`, which takes no
sample-rate argument, performs no rate-ceiling check at all — a two-channel
start reaches the native call whatever the configured rate. -/
theorem c6_rate_ceiling_check (env : ScanStartEnv) (mask : Int) (spc : Nat)
    (rate : ℚ) (opts : Nat) (hm : mask ≠ 0)
    (hr : (countChannels mask 8 : ℚ) * rate > MAX_SAMPLE_RATE_128) :
    (mcc128_a_in_scan_start env true mask spc rate opts).1 =
      .error (.valueError
        "Invalid sample_rate_per_channel, exceeds maximum rate for device.") ∧
    (mcc128_a_in_scan_start env true mask spc rate opts).2 = false ∧
    ∀ (env₂ : ScanStartEnv) (spc₂ opts₂ : Nat),
      (mcc172_a_in_scan_start env₂ true 3 spc₂ opts₂).2 = true := by
  refine ⟨?_, ?_, fun env₂ spc₂ opts₂ => ?_⟩
  · unfold mcc128_a_in_scan_start
    rw [if_neg (by simp), if_neg hm, if_pos hr]
  · unfold mcc128_a_in_scan_start
    rw [if_neg (by simp), if_neg hm, if_pos hr]
  · unfold mcc172_a_in_scan_start
    rw [if_neg (by simp), if_neg (by decide)]
    split_ifs <;> rfl

/-- Witness for C6 at mask 3 (two channels) and rate 60000: the aggregate
120000 exceeds the MCC 128 ceiling. -/
theorem c6_rate_ceiling_check_witness :
    (3 : Int) ≠ 0 ∧
    (countChannels 3 8 : ℚ) * 60000 > MAX_SAMPLE_RATE_128 ∧
    ((mcc128_a_in_scan_start ⟨0, RESULT_SUCCESS⟩ true 3 1000 60000 0).1 =
      .error (.valueError
        "Invalid sample_rate_per_channel, exceeds maximum rate for device.") ∧
     (mcc128_a_in_scan_start ⟨0, RESULT_SUCCESS⟩ true 3 1000 60000 0).2 = false ∧
     ∀ (env₂ : ScanStartEnv) (spc₂ opts₂ : Nat),
       (mcc172_a_in_scan_start env₂ true 3 spc₂ opts₂).2 = true) := by
  have hc : countChannels 3 8 = 2 := by decide
  have hr : (countChannels 3 8 : ℚ) * 60000 > MAX_SAMPLE_RATE_128 := by
    rw [hc]
    norm_num [MAX_SAMPLE_RATE_128]
  exact ⟨by decide, hr,
    c6_rate_ceiling_check ⟨0, RESULT_SUCCESS⟩ 3 1000 60000 0 (by decide) hr⟩

/-- Shallow embedding of `mcc128.a_in_scan_cleanup` (mcc128.py lines
1059-1078): `nativeResult` is what the native `mcc128_a_in_scan_cleanup`
returned; any non-success raises the generic `HatError "Incorrect
response."`. -/
def mcc128_a_in_scan_cleanup (inited : Bool) (address : Int)
    (nativeResult : Int) : Except PyErr Unit :=
  if inited = false then .error (.hatError address "Not initialized.")
  else if nativeResult ≠ RESULT_SUCCESS then
    .error (.hatError address "Incorrect response.")
  else .ok ()

/-- The `MCC128ScanStatus` namedtuple returned by `a_in_scan_status`. -/
structure Mcc128ScanStatus where
  running : Bool
  hardware_overrun : Bool
  buffer_overrun : Bool
  triggered : Bool
  samples_available : Nat
deriving DecidableEq, Repr

/-- Shallow embedding of `mcc128.a_in_scan_status` (mcc128.py lines 719-770):
unlike cleanup, it maps the no-active-scan code `RESULT_RESOURCE_UNAVAIL` to
its own distinct message "Scan not active.". -/
def mcc128_a_in_scan_status (inited : Bool) (address : Int)
    (nativeResult : Int) (statusBits : Nat) (samplesAvailable : Nat) :
    Except PyErr Mcc128ScanStatus :=
  if inited = false then .error (.hatError address "Not initialized.")
  else if nativeResult = RESULT_RESOURCE_UNAVAIL then
    .error (.hatError address "Scan not active.")
  else if nativeResult ≠ RESULT_SUCCESS then
    .error (.hatError address ("Incorrect response " ++ toString nativeResult ++ "."))
  else
    .ok { running := statusBits &&& 8 != 0
          hardware_overrun := statusBits &&& 1 != 0
          buffer_overrun := statusBits &&& 2 != 0
          triggered := statusBits &&& 4 != 0
          samples_available := samplesAvailable }

/-- C7 counterexample: `a_in_scan_cleanup` with nothing to clean up (native
resource-unavailable result) produces exactly the same generic HatError as a
native comms failure — the binding does not raise a distinct NoActiveScan
error from cleanup. -/
theorem c7_counterexample :
    mcc128_a_in_scan_cleanup true 0 RESULT_RESOURCE_UNAVAIL =
      mcc128_a_in_scan_cleanup true 0 RESULT_COMMS_FAILURE ∧
    mcc128_a_in_scan_cleanup true 0 RESULT_RESOURCE_UNAVAIL =
      .error (.hatError 0 "Incorrect response.") :=
  ⟨rfl, rfl⟩

/-- C7 amended: on an initialized device, `a_in_scan_cleanup` maps every
non-success native result — including the no-active-scan
resource-unavailable code — to the one generic `HatError "Incorrect
response."`; it does not distinguish a NoActiveScan condition (whereas
`a_in_scan_status` does, raising "Scan not active." for that code). -/
theorem c7_cleanup_error_is_generic (address : Int) (r : Int)
    (h : r ≠ RESULT_SUCCESS) :
    mcc128_a_in_scan_cleanup true address r =
      .error (.hatError address "Incorrect response.") ∧
    mcc128_a_in_scan_status true address RESULT_RESOURCE_UNAVAIL 0 0 =
      .error (.hatError address "Scan not active.") := by
  constructor
  · unfold mcc128_a_in_scan_cleanup
    rw [if_neg (by simp), if_pos h]
  · unfold mcc128_a_in_scan_status
    rw [if_neg (by simp), if_pos rfl]

/-- Witness for C7 at the resource-unavailable result code. -/
theorem c7_cleanup_error_is_generic_witness :
    RESULT_RESOURCE_UNAVAIL ≠ RESULT_SUCCESS ∧
    (mcc128_a_in_scan_cleanup true 0 RESULT_RESOURCE_UNAVAIL =
      .error (.hatError 0 "Incorrect response.") ∧
     mcc128_a_in_scan_status true 0 RESULT_RESOURCE_UNAVAIL 0 0 =
      .error (.hatError 0 "Scan not active.")) :=
  ⟨by decide, c7_cleanup_error_is_generic 0 RESULT_RESOURCE_UNAVAIL (by decide)⟩

/-- The native per-device scan state as the spec describes it: `active`
(started and not yet cleaned up), `running` (still acquiring), the sticky
status flags, and the per-channel sample count buffered. -/
structure NativeScanState where
  active : Bool
  running : Bool
  hwOverrun : Bool
  bufOverrun : Bool
  triggered : Bool
  samplesAvailable : Nat
deriving DecidableEq, Repr

/-- Modelled from the spec: the native `mcc128_a_in_scan_stop` entry point (C
library, not among the Python sources under verification) halts acquisition
immediately, leaves buffered data readable, and returns success also on an
already-stopped scan ("Idempotent-safe to call on an already-stopped scan
(implementation choice; native layer returns success)"). -/
def native_a_in_scan_stop (s : NativeScanState) : Int × NativeScanState :=
  (RESULT_SUCCESS, { s with running := false })

/-- Modelled from the spec: the native scan-status entry point reports the
status bits (`HW_OVERRUN = 1`, `BUFFER_OVERRUN = 2`, `TRIGGERED = 4`,
`RUNNING = 8`) and sample count of an active scan, and resource-unavailable
when no scan is active. -/
def native_a_in_scan_status (s : NativeScanState) : Int × Nat × Nat :=
  if s.active then
    (RESULT_SUCCESS,
     (if s.hwOverrun then 1 else 0) + (if s.bufOverrun then 2 else 0) +
       (if s.triggered then 4 else 0) + (if s.running then 8 else 0),
     s.samplesAvailable)
  else (RESULT_RESOURCE_UNAVAIL, 0, 0)

/-- Shallow embedding of `mcc128.a_in_scan_stop` (mcc128.py lines 1038-1057)
over the modelled native scan state: raise the generic HatError iff the
native stop reports non-success. -/
def mcc128_a_in_scan_stop (inited : Bool) (address : Int)
    (s : NativeScanState) : Except PyErr Unit × NativeScanState :=
  if inited = false then (.error (.hatError address "Not initialized."), s)
  else if (native_a_in_scan_stop s).1 ≠ RESULT_SUCCESS then
    (.error (.hatError address "Incorrect response."), (native_a_in_scan_stop s).2)
  else (.ok (), (native_a_in_scan_stop s).2)

/-- The binding `a_in_scan_status` applied to the modelled native state. -/
def mcc128_scan_status_of_state (inited : Bool) (address : Int)
    (s : NativeScanState) : Except PyErr Mcc128ScanStatus :=
  mcc128_a_in_scan_status inited address (native_a_in_scan_status s).1
    (native_a_in_scan_status s).2.1 (native_a_in_scan_status s).2.2

/-- Status bits assembled with the RUNNING bit off never test running. -/
lemma status_bits_not_running (a b c : Bool) :
    ((((if a = true then 1 else 0) + (if b = true then 2 else 0) +
      (if c = true then 4 else 0) + (if false = true then 8 else 0) : Nat))
      &&& 8 != 0) = false := by
  cases a <;> cases b <;> cases c <;> decide

/-- C8: stopping twice has the same observable effect as stopping once — both
calls return success without raising, the state after the second call equals
the state after the first, and on an active scan the reported status shows
not-running after the first stop (hence after either sequence). -/
theorem c8_stop_idempotent (address : Int) (s : NativeScanState) :
    (mcc128_a_in_scan_stop true address s).1 = .ok () ∧
    (mcc128_a_in_scan_stop true address
      (mcc128_a_in_scan_stop true address s).2).1 = .ok () ∧
    (mcc128_a_in_scan_stop true address
      (mcc128_a_in_scan_stop true address s).2).2 =
      (mcc128_a_in_scan_stop true address s).2 ∧
    ((mcc128_a_in_scan_stop true address s).2).running = false ∧
    (s.active = true →
      ∃ st, mcc128_scan_status_of_state true address
          (mcc128_a_in_scan_stop true address s).2 = .ok st ∧
        st.running = false) := by
  have hstop : ∀ t : NativeScanState,
      mcc128_a_in_scan_stop true address t = (.ok (), { t with running := false }) := by
    intro t
    unfold mcc128_a_in_scan_stop native_a_in_scan_stop
    rw [if_neg (by simp), if_neg (by simp)]
  refine ⟨by rw [hstop], by rw [hstop], ?_, by rw [hstop], fun hact => ?_⟩
  · rw [hstop (mcc128_a_in_scan_stop true address s).2, hstop s]
  · rw [hstop]
    unfold mcc128_scan_status_of_state native_a_in_scan_status
    rw [if_pos (show ({ s with running := false } : NativeScanState).active = true from hact)]
    unfold mcc128_a_in_scan_status
    rw [if_neg (by simp), if_neg (by simp [RESULT_SUCCESS, RESULT_RESOURCE_UNAVAIL]),
      if_neg (by simp)]
    exact ⟨_, rfl, status_bits_not_running s.hwOverrun s.bufOverrun s.triggered⟩

/-- Witness for C8 on a concrete running scan. -/
theorem c8_stop_idempotent_witness :
    (mcc128_a_in_scan_stop true 0 ⟨true, true, false, false, true, 5⟩).1 = .ok () ∧
    (mcc128_a_in_scan_stop true 0
      (mcc128_a_in_scan_stop true 0 ⟨true, true, false, false, true, 5⟩).2).1 = .ok () ∧
    (mcc128_a_in_scan_stop true 0
      (mcc128_a_in_scan_stop true 0 ⟨true, true, false, false, true, 5⟩).2).2 =
      (mcc128_a_in_scan_stop true 0 ⟨true, true, false, false, true, 5⟩).2 ∧
    ((mcc128_a_in_scan_stop true 0 ⟨true, true, false, false, true, 5⟩).2).running = false ∧
    (∃ st, mcc128_scan_status_of_state true 0
        (mcc128_a_in_scan_stop true 0 ⟨true, true, false, false, true, 5⟩).2 = .ok st ∧
      st.running = false) := by
  have h := c8_stop_idempotent 0 ⟨true, true, false, false, true, 5⟩
  exact ⟨h.1, h.2.1, h.2.2.1, h.2.2.2.1, h.2.2.2.2 rfl⟩

/-- What the native layer reports during construction of a device handle:
whether `libdaqhats` loaded, and the `mcc128_open` result. -/
structure HatOpenEnv where
  libLoaded : Bool
  openResult : Int

/-- The state of a constructed `mcc128` object: `_address` and
`_initialized`. -/
structure Mcc128Handle where
  address : Int
  inited : Bool
deriving DecidableEq, Repr

/-- The `Hat.address()` accessor (hats.py lines 380-382). -/
def hat_address (h : Mcc128Handle) : Int := h.address

/-- Shallow embedding of `Hat.__init__` (hats.py lines 362-378) composed with
the `mcc128.__init__` open handshake (mcc128.py lines 157-166): validate
`address in range(8)` before anything native, load the library, call
`mcc128_open`, and map its result (`SUCCESS` → initialized handle,
`INVALID_DEVICE` → "Invalid board type.", anything else → "Board not
responding.").  The second component records whether the native
`mcc128_open` call was reached. -/
def mcc128_init (env : HatOpenEnv) (address : Int) :
    Except PyErr Mcc128Handle × Bool :=
  if ¬(0 ≤ address ∧ address ≤ 7) then
    (.error (.valueError ("Invalid address " ++ toString address ++ ". Must be 0-7.")),
     false)
  else if env.libLoaded = false then
    (.error (.exception "daqhats shared library is not installed."), false)
  else if env.openResult = RESULT_SUCCESS then
    (.ok { address := address, inited := true }, true)
  else if env.openResult = RESULT_INVALID_DEVICE then
    (.error (.hatError address "Invalid board type."), true)
  else
    (.error (.hatError address "Board not responding."), true)

/-- C9: constructing a handle validates `0 ≤ address ≤ 7` and raises
ValueError for any other integer address before any native call; in range
(with the library loaded), the open handshake maps `INVALID_DEVICE` to the
wrong-board-type HatError, any other failure to the not-responding HatError,
and on success yields an initialized handle whose `address()` returns the
given address unchanged. -/
theorem c9_open_validates_address (env : HatOpenEnv) (address : Int) :
    (¬(0 ≤ address ∧ address ≤ 7) →
      mcc128_init env address =
        (.error (.valueError
          ("Invalid address " ++ toString address ++ ". Must be 0-7.")), false)) ∧
    (env.libLoaded = true → 0 ≤ address → address ≤ 7 →
      ((env.openResult = RESULT_INVALID_DEVICE →
         (mcc128_init env address).1 = .error (.hatError address "Invalid board type.")) ∧
       (env.openResult ≠ RESULT_SUCCESS → env.openResult ≠ RESULT_INVALID_DEVICE →
         (mcc128_init env address).1 = .error (.hatError address "Board not responding.")) ∧
       (env.openResult = RESULT_SUCCESS →
         ∃ h, (mcc128_init env address).1 = .ok h ∧ h.inited = true ∧
           hat_address h = address ∧ (mcc128_init env address).2 = true))) := by
  constructor
  · intro h
    unfold mcc128_init
    rw [if_pos h]
  · intro hlib h0 h7
    have hrange : ¬¬(0 ≤ address ∧ address ≤ 7) := not_not_intro ⟨h0, h7⟩
    unfold mcc128_init
    rw [if_neg hrange, if_neg (by simp [hlib])]
    refine ⟨fun hinv => ?_, fun hns hnid => ?_, fun hs => ?_⟩
    · rw [if_neg (by rw [hinv]; decide), if_pos hinv]
    · rw [if_neg hns, if_neg hnid]
    · rw [if_pos hs]
      exact ⟨_, rfl, rfl, rfl, rfl⟩

/-- Witness for C9: address 9 is rejected before any native call; address 3
with a successful handshake yields an initialized handle reporting address 3. -/
theorem c9_open_validates_address_witness :
    ¬(0 ≤ (9 : Int) ∧ (9 : Int) ≤ 7) ∧
    mcc128_init ⟨true, RESULT_SUCCESS⟩ 9 =
      (.error (.valueError
        ("Invalid address " ++ toString (9 : Int) ++ ". Must be 0-7.")), false) ∧
    (∃ h, (mcc128_init ⟨true, RESULT_SUCCESS⟩ 3).1 = .ok h ∧ h.inited = true ∧
      hat_address h = 3 ∧ (mcc128_init ⟨true, RESULT_SUCCESS⟩ 3).2 = true) :=
  ⟨by decide,
   (c9_open_validates_address ⟨true, RESULT_SUCCESS⟩ 9).1 (by decide),
   ((c9_open_validates_address ⟨true, RESULT_SUCCESS⟩ 3).2 rfl (by decide) (by decide)).2.2 rfl⟩

end Daqhats
